import Mathlib

/-!
# Verification of the co-simulation coupling harness drivers

Shallow embedding of `src/modules/seastate/py_seastate_1/py_seastate_driver.py`
and `src/glue-codes/other/py_wavetank_test1/py_wavetank_driver.py`.
Python floats are modelled by exact rationals: every property checked here is
an exact-arithmetic fact about values (30.0, 48.0, 1.375, …) that are either
exactly representable or far enough apart that rounding cannot affect the
verdict.
-/

namespace SeaState

/-- Python `int(q)` applied to a float/rational: truncation toward zero. -/
def pyInt (q : ℚ) : ℤ :=
  if 0 ≤ q then ⌊q⌋ else ⌈q⌉

/-- `np.linspace(start, stop, num)` (with the default `endpoint=True`):
`num` evenly spaced samples from `start` to `stop`, both endpoints included,
i.e. sample `i` is `start + i * (stop - start) / (num - 1)`.
Rational idealisation of the float routine. -/
def linspace (start stop : ℚ) (num : ℕ) : List ℚ :=
  if num ≤ 1 then List.replicate num start
  else (List.range num).map fun (i : ℕ) =>
    start + (i : ℚ) * ((stop - start) / ((num : ℚ) - 1))

/-- The time-related and size-related fields of the `SeaStateConfig` dataclass,
with the dataclass's default values (`t_start=30.0, t_final=48.0, dt=1.375`). -/
structure SeaStateConfig where
  t_start : ℚ := 30
  t_final : ℚ := 48
  dt : ℚ := 1.375
  debug_level : ℤ := 0

/-- The default configuration `SeaStateConfig()` used by `__main__`. -/
def defaultConfig : SeaStateConfig := {}

/-- The `self.time` array built in `SeaStateDriver.__init__`:
`np.linspace(t_start, t_final, int((t_final - t_start) / dt) + 1)`. -/
def timeSeq (cfg : SeaStateConfig) : List ℚ :=
  linspace cfg.t_start cfg.t_final
    ((pyInt ((cfg.t_final - cfg.t_start) / cfg.dt) + 1).toNat)

/-- Differences of consecutive entries of a list: entry `i` is `l[i+1] - l[i]`. -/
def consecutiveDiffs (l : List ℚ) : List ℚ :=
  (l.zip l.tail).map fun p => p.2 - p.1

/-- A sample point, one row of `Points.inp` (`[X, Y, Z]`). -/
abbrev Vec3 : Type := ℚ × ℚ × ℚ

/-- One row written to the `Points.Results.dat` sink by `results_output.write`:
`(t, pos, vel, acc, nodeInWater, elev, normVec)`. -/
structure ResultRecord where
  t : ℚ
  pos : Vec3
  vel : Vec3
  acc : Vec3
  nodeInWater : ℤ
  elev : ℚ
  normVec : Vec3

/-- The exception that escapes the stepping loop, tagged by the failing call. -/
inductive RunError where
  | calcOutput (t : ℚ)
  | fluidVelAcc (t : ℚ) (pos : Vec3)
  | surfElev (t : ℚ) (pos : Vec3)
  | surfNorm (t : ℚ) (pos : Vec3)

/-- Abstract behaviour of the `pyOpenFAST.seastate` library calls issued by
`run_simulation`.  Each fallible call either returns a value (`some`/`true`)
or raises (`none`/`false`); the driver's control flow is verified for every
such behaviour. -/
structure EngineBehavior where
  numChannels : ℕ
  preinitOk : Bool
  initOk : Bool
  getPtrOk : Bool
  setPtrOk : Bool
  calcOutput : ℚ → Option (List ℚ)
  fluidVelAcc : ℚ → Vec3 → Option (Vec3 × Vec3 × ℤ)
  surfElev : ℚ → Vec3 → Option ℚ
  surfNorm : ℚ → Vec3 → Option Vec3

/-- The inner per-point loop of `run_simulation` (`for j in range(self.numuResPts)`):
for each point, `get_fluidVelAcc`, `get_surfElev`, `get_surfNorm` are called in
that order; on the first failure the exception propagates (records written so
far stay written), otherwise a `ResultRecord` row is written. -/
def runPoints (eng : EngineBehavior) (t : ℚ) :
    List Vec3 → List ResultRecord × Option RunError
  | [] => ([], none)
  | pos :: rest =>
    match eng.fluidVelAcc t pos with
    | none => ([], some (RunError.fluidVelAcc t pos))
    | some va =>
      match eng.surfElev t pos with
      | none => ([], some (RunError.surfElev t pos))
      | some elev =>
        match eng.surfNorm t pos with
        | none => ([], some (RunError.surfNorm t pos))
        | some nv =>
          let res := runPoints eng t rest
          (⟨t, pos, va.1, va.2.1, va.2.2, elev, nv⟩ :: res.1, res.2)

/-- The outer time-stepping loop of `run_simulation`
(`for i, t in enumerate(self.time)`): `seastate_calcOutput`, then the row of
`all_output_channel_values`, then the per-point loop.  Returns the completed
channel rows, the `ResultRecord` rows written, and the propagating exception
if any. -/
def runSteps (eng : EngineBehavior) (points : List Vec3) :
    List ℚ → List (ℚ × List ℚ) × List ResultRecord × Option RunError
  | [] => ([], [], none)
  | t :: rest =>
    match eng.calcOutput t with
    | none => ([], [], some (RunError.calcOutput t))
    | some vals =>
      let pr := runPoints eng t points
      match pr.2 with
      | some e => ([(t, vals)], pr.1, some e)
      | none =>
        let rs := runSteps eng points rest
        ((t, vals) :: rs.1, pr.1 ++ rs.2.1, rs.2.2)

/-- Observable outcome of the `try`/`finally` stepping phase of
`run_simulation`. -/
structure RunOutcome where
  /-- Rows assigned into `all_output_channel_values` (the in-memory
  channel-series table), in order. -/
  channelMemRows : List (ℚ × List ℚ)
  /-- Rows written to the per-point `results_output` sink before
  `results_output.end()`. -/
  resultRows : List ResultRecord
  /-- Contents written to the channel-series `out_file`
  (`py_seastate.out`); `none` when the write at the end of
  `run_simulation` is never reached. -/
  channelFileRows : Option (List (ℚ × List ℚ))
  /-- `results_output.end()` ran (the `finally` block). -/
  resultsEnded : Bool
  /-- `self.sslib.seastate_end()` ran (the `finally` block). -/
  engineEnded : Bool
  /-- The exception propagating out of the loop, if any. -/
  error : Option RunError

/-- The stepping phase of `run_simulation`: the loop wrapped in
`try`/`finally` (the `finally` always runs `results_output.end()` and
`seastate_end()`), followed — only when no exception propagates — by the
write of `all_output_channel_values` to `out_file`. -/
def runLoop (eng : EngineBehavior) (cfg : SeaStateConfig) (points : List Vec3) :
    RunOutcome :=
  let r := runSteps eng points (timeSeq cfg)
  { channelMemRows := r.1
    resultRows := r.2.1
    channelFileRows := match r.2.2 with
      | some _ => none
      | none => some r.1
    resultsEnded := true
    engineEnded := true
    error := r.2.2 }

/-- How one call of `SeaStateDriver.run_simulation` ends, as seen by its
caller and by the operating system. -/
inductive DriverResult where
  /-- Normal return after printing the completion message. -/
  | completed (out : RunOutcome)
  /-- An exception propagates out of `run_simulation` to the caller. -/
  | raised (e : RunError) (out : RunOutcome)
  /-- `sys.exit(code)` executed inside `run_simulation` itself. -/
  | exited (code : ℕ)

/-- Whether the result is an exception raised to the caller. -/
def DriverResult.isRaised : DriverResult → Bool
  | .raised _ _ => true
  | _ => false

/-- `SeaStateDriver.run_simulation`, including its pre-loop phase: loading
`Points.inp` (`sys.exit(1)` on failure), `seastate_preinit`, `seastate_init`,
`seastate_getWaveFieldPointer` and `seastate_setWaveFieldPointer` (each of
which prints and calls `sys.exit(1)` on failure), then the `try`/`finally`
stepping phase whose exceptions propagate to the caller. -/
def run_simulation (eng : EngineBehavior) (cfg : SeaStateConfig)
    (pointsFile : Option (List Vec3)) : DriverResult :=
  match pointsFile with
  | none => .exited 1
  | some points =>
    if ¬eng.preinitOk then .exited 1
    else if ¬eng.initOk then .exited 1
    else if ¬eng.getPtrOk then .exited 1
    else if ¬eng.setPtrOk then .exited 1
    else
      let out := runLoop eng cfg points
      match out.error with
      | some e => .raised e out
      | none => .completed out

/-- All engine calls made during the step at time `t` succeed. -/
def stepOk (eng : EngineBehavior) (points : List Vec3) (t : ℚ) : Bool :=
  (eng.calcOutput t).isSome && points.all fun p =>
    (eng.fluidVelAcc t p).isSome &&
      ((eng.surfElev t p).isSome && (eng.surfNorm t p).isSome)

/-- A sample point used in the concrete runs below. -/
def p0 : Vec3 := (0, 0, -5)

/-- Three sample points, matching the 3-point scenario of spec §8. -/
def pts3 : List Vec3 := [(0, 0, 0), (0, 0, -2), (0, 0, -5)]

/-- A small fixed-step configuration (`t_start=0, t_final=4, dt=1`), whose
time grid is `[0, 1, 2, 3, 4]`. -/
def smallConfig : SeaStateConfig := { t_start := 0, t_final := 4, dt := 1 }

/-- An engine all of whose calls succeed (`seastate_calcOutput` reports the
time as the single channel value). -/
def engAllOk : EngineBehavior :=
  { numChannels := 1
    preinitOk := true
    initOk := true
    getPtrOk := true
    setPtrOk := true
    calcOutput := fun t => some [t]
    fluidVelAcc := fun _ _ => some ((0, 0, 0), (0, 0, 0), 1)
    surfElev := fun _ _ => some 0
    surfNorm := fun _ _ => some (0, 0, 1) }

/-- An engine whose `seastate_calcOutput` raises at every time `t ≥ 2` and
succeeds before; every other call succeeds. -/
def engFailAt2 : EngineBehavior :=
  { engAllOk with calcOutput := fun t => if t < 2 then some [t] else none }

/-- An engine whose `seastate_init` raises; later calls are never reached. -/
def engInitFails : EngineBehavior :=
  { engAllOk with initOk := false }

/-! ## Lifecycle, state-pointer exchange and teardown

The bodies of `seastate_end`, `seastate_getWaveFieldPointer`,
`seastate_setWaveFieldPointer`, the query guards and the sink `end()` live in
the `pyOpenFAST` package, not under `src/`; the drivers only call them.  They
are modelled from the spec below (each doc comment says from which clause). -/

/-- Lifecycle states of the controller (spec §4.1):
`Uninitialized → PreInitialized → Initialized → Stepping → Finalized`. -/
inductive LifeState where
  | uninitialized
  | preInitialized
  | initialized
  | stepping
  | finalized
deriving DecidableEq

/-- Error taxonomy of the harness (spec §7). -/
inductive HarnessError where
  | configurationError
  | engineInitError
  | resourceError
  | stepComputationError
  | handleUnavailableError
  | handleMismatchError
  | lifecycleViolationError
deriving DecidableEq

/-- An opaque, shape-tagged reference to engine-internal field data
(spec §3, `SharedFieldHandle`). -/
structure FieldHandle where
  shapeTag : ℕ
  addr : ℕ
deriving DecidableEq

/-- The Result sink of spec §4.4: accumulated row count, whether `flush()`
already happened, and the number of physical writes to the external sink. -/
structure ResultSink where
  rows : ℕ
  flushed : Bool
  writes : ℕ
deriving DecidableEq

/-- Engine-side state owned by the Engine Handle. -/
structure EngineState where
  life : LifeState
  waveField : FieldHandle
  handleReleased : Bool
deriving DecidableEq

/-- The state is at or after `Initialized` (spec §4.1). -/
def atLeastInitialized : LifeState → Bool
  | .initialized | .stepping | .finalized => true
  | _ => false

/-- The state is before `initialize` completed. -/
def beforeInitialized (l : LifeState) : Bool :=
  !(atLeastInitialized l)

/-- A step or query call is allowed: after `initialize` completes and before
`finalize` begins (spec §3, EngineHandle invariant). -/
def callAllowed : LifeState → Bool
  | .initialized | .stepping => true
  | _ => false

/-- Pure field data underlying the engine: what each query kind and the raw
step computation would answer.  The raw step may itself fail with a
lower-level engine error. -/
structure FieldModel where
  velAcc : ℚ → Vec3 → Vec3 × Vec3 × ℤ
  elev : ℚ → Vec3 → ℚ
  surfaceNorm : ℚ → Vec3 → Vec3
  rawStep : ℚ → Except HarnessError (List ℚ)

/-- The three field-query kinds of spec §4.2 item 4. -/
inductive QueryKind where
  | velAcc
  | elev
  | surfaceNorm
deriving DecidableEq

/-- The value returned by one field query. -/
inductive QueryValue where
  | velAcc (vel acc : Vec3) (nodeInWater : ℤ)
  | elev (e : ℚ)
  | surfaceNorm (n : Vec3)

/-- The order-independent answer of a query kind at `(t, p)`. -/
def queryAnswer (m : FieldModel) (t : ℚ) (p : Vec3) : QueryKind → QueryValue
  | .velAcc => QueryValue.velAcc (m.velAcc t p).1 (m.velAcc t p).2.1 (m.velAcc t p).2.2
  | .elev => QueryValue.elev (m.elev t p)
  | .surfaceNorm => QueryValue.surfaceNorm (m.surfaceNorm t p)

/-- Modelled from the spec: the guard shared by every stepping/query entry
point — "no step/query call is valid before `initialize` completes or after
`finalize` begins" (§3), violations fail with `LifecycleViolationError`
(§4.1, §7).  The per-step engine computation itself (`seastate_calcOutput`
in pyOpenFAST, not under `src/`) runs only after the guard passes and moves
the state to `Stepping` (§4.1 `beginStepping`). -/
def guardedStep (m : FieldModel) (s : EngineState) (t : ℚ) :
    Except HarnessError (List ℚ × EngineState) :=
  if callAllowed s.life then
    match m.rawStep t with
    | .error e => .error e
    | .ok vals => .ok (vals, { s with life := .stepping })
  else .error .lifecycleViolationError

/-- Modelled from the spec: a guarded field query (`get_fluidVelAcc`,
`get_surfElev`, `get_surfNorm` in pyOpenFAST, not under `src/`): lifecycle
guard first (§3, §7), then the pure field answer; the engine state is not
mutated by a query (§8, query-independence scenario). -/
def guardedQuery (m : FieldModel) (s : EngineState) (t : ℚ) (p : Vec3)
    (k : QueryKind) : Except HarnessError (QueryValue × EngineState) :=
  if callAllowed s.life then .ok (queryAnswer m t p k, s)
  else .error .lifecycleViolationError

/-- Run a list of queries at the same `(t, p)` in the given order, threading
the engine state through the calls. -/
def runQueries (m : FieldModel) (t : ℚ) (p : Vec3) :
    EngineState → List QueryKind → List (Except HarnessError QueryValue) × EngineState
  | s, [] => ([], s)
  | s, k :: ks =>
    match guardedQuery m s t p k with
    | .error e =>
      let r := runQueries m t p s ks
      (.error e :: r.1, r.2)
    | .ok vs =>
      let r := runQueries m t p vs.2 ks
      (.ok vs.1 :: r.1, r.2)

/-- Modelled from the spec: `flush()` of the Result sink — "writes to an
external sink exactly once per run … calling it a second time is a no-op
rather than a duplicate write" (§4.4).  Implemented by `ResultsOut.end` /
`WriteOutChans.end` in pyOpenFAST, not under `src/`. -/
def flushOp (k : ResultSink) : ResultSink :=
  if k.flushed then k else { k with flushed := true, writes := k.writes + 1 }

/-- Modelled from the spec: `finalize()` — "valid from any state at or after
`Initialized`; idempotent … releases the Engine Handle; moves to `Finalized`"
(§4.1).  Implemented by `seastate_end` in pyOpenFAST, not under `src/`. -/
def finalizeOp (s : EngineState) : Except HarnessError EngineState :=
  if atLeastInitialized s.life then
    .ok { s with life := .finalized, handleReleased := true }
  else .error .lifecycleViolationError

/-- The cleanup path of `run_simulation`'s `finally` block: flush/close the
Result sink and finalize the engine (spec §5, single teardown routine). -/
def teardown (s : EngineState) (k : ResultSink) :
    Except HarnessError (EngineState × ResultSink) :=
  match finalizeOp s with
  | .error e => .error e
  | .ok s2 => .ok (s2, flushOp k)

/-- Modelled from the spec: `getFieldHandle()` — "retrieves the engine's
current internal field reference; fails with `HandleUnavailableError` if the
engine has no such field constructed yet (i.e., before `initialize`
completes)" (§4.3).  Implemented by `seastate_getWaveFieldPointer` in
pyOpenFAST, not under `src/`. -/
def getWaveFieldPointer (s : EngineState) :
    Except HarnessError (FieldHandle × EngineState) :=
  if beforeInitialized s.life then .error .handleUnavailableError
  else .ok (s.waveField, s)

/-- Modelled from the spec: `setFieldHandle(h)` — "informs the engine to use
an externally supplied field reference instead of its own; the engine must
validate the handle's shape/type tag before accepting; fails with
`HandleMismatchError` on shape/type mismatch" (§4.3).  Implemented by
`seastate_setWaveFieldPointer` in pyOpenFAST, not under `src/`. -/
def setWaveFieldPointer (h : FieldHandle) (s : EngineState) :
    Except HarnessError EngineState :=
  if h.shapeTag = s.waveField.shapeTag then .ok { s with waveField := h }
  else .error .handleMismatchError

/-- A concrete field model used in the witnesses below. -/
def fm0 : FieldModel :=
  { velAcc := fun _ _ => ((1, 2, 3), (4, 5, 6), 1)
    elev := fun t _ => t
    surfaceNorm := fun _ _ => (0, 0, 1)
    rawStep := fun t => .ok [t] }

/-- A field model whose raw step computation always fails with a lower-level
engine error. -/
def fmRawFails : FieldModel :=
  { fm0 with rawStep := fun _ => .error .stepComputationError }

end SeaState

namespace WaveTank

/-- One row of the motion series read from the TDMS file: the
`floater_motions` channels used by the wavetank driver loop. -/
structure FloaterMotion where
  x : ℚ
  y : ℚ
  z : ℚ
  phi : ℚ
  theta : ℚ
  psi : ℚ
  x_dot : ℚ
  y_dot : ℚ
  z_dot : ℚ
  phi_dot : ℚ
  theta_dot : ℚ
  psi_dot : ℚ
  x_ddot : ℚ
  y_ddot : ℚ
  z_ddot : ℚ
  phi_ddot : ℚ
  theta_ddot : ℚ
  psi_ddot : ℚ

/-- The `pos` array built per step in `py_wavetank_driver.py`, mirroring the
source's sequential assignments: the binding `y` is assigned
`floater_motions["y"][i]` and then reassigned `floater_motions["psi"][i]`
before `np.array([x, y, z, r, p, y])` is formed. -/
def buildPos (m : FloaterMotion) : List ℚ :=
  let x := m.x
  let y := m.y
  let z := m.z
  let r := m.phi
  let p := m.theta
  let y := m.psi
  [x, y, z, r, p, y]

/-- The `vel` array built per step: `y_dot` is assigned the translational
velocity and then reassigned `psi_dot` before
`np.array([x_dot, y_dot, z_dot, r_dot, p_dot, y_dot])` is formed. -/
def buildVel (m : FloaterMotion) : List ℚ :=
  let x_dot := m.x_dot
  let y_dot := m.y_dot
  let z_dot := m.z_dot
  let r_dot := m.phi_dot
  let p_dot := m.theta_dot
  let y_dot := m.psi_dot
  [x_dot, y_dot, z_dot, r_dot, p_dot, y_dot]

/-- The `acc` array built per step: `y_ddot` is assigned the translational
acceleration and then reassigned `psi_ddot` before
`np.array([x_ddot, y_ddot, z_ddot, r_ddot, p_ddot, y_ddot])` is formed. -/
def buildAcc (m : FloaterMotion) : List ℚ :=
  let x_ddot := m.x_ddot
  let y_ddot := m.y_ddot
  let z_ddot := m.z_ddot
  let r_ddot := m.phi_ddot
  let p_ddot := m.theta_ddot
  let y_ddot := m.psi_ddot
  [x_ddot, y_ddot, z_ddot, r_ddot, p_ddot, y_ddot]

/-- `wtt.MotionData(pos, vel, acc)` as passed to `wtlib.calc_step`. -/
structure MotionData where
  pos : List ℚ
  vel : List ℚ
  acc : List ℚ

/-- The `body_motion` argument of the `wtlib.calc_step` call at step `i`,
built from the motion-series row `m`. -/
def stepInputs (m : FloaterMotion) : MotionData :=
  ⟨buildPos m, buildVel m, buildAcc m⟩

end WaveTank

/-! ## Helper lemmas -/

namespace SeaState

theorem linspace_length (a b : ℚ) (n : ℕ) : (linspace a b n).length = n := by
  unfold linspace
  split <;> simp

theorem linspace_head (a b : ℚ) (n : ℕ) (hn : n ≠ 0) :
    (linspace a b n).head? = some a := by
  unfold linspace
  split
  · have h1 : n = 1 := by omega
    subst h1
    rfl
  · obtain ⟨m, rfl⟩ : ∃ m, n = m + 1 := ⟨n - 1, by omega⟩
    rw [List.range_succ_eq_map]
    simp

theorem linspace_getElem (a b : ℚ) (n i : ℕ) (h2 : 2 ≤ n)
    (hi : i < (linspace a b n).length) :
    (linspace a b n)[i] = a + (i : ℚ) * ((b - a) / ((n : ℚ) - 1)) := by
  have hn : ¬n ≤ 1 := by omega
  simp only [linspace, if_neg hn] at hi ⊢
  simp only [List.getElem_map, List.getElem_range]

theorem linspace_getLast (a b : ℚ) (n : ℕ) (h2 : 2 ≤ n) :
    (linspace a b n).getLast? = some b := by
  have hlen : (linspace a b n).length = n := linspace_length a b n
  have hlt : (linspace a b n).length - 1 < (linspace a b n).length := by
    rw [hlen]; omega
  rw [List.getLast?_eq_getElem?, List.getElem?_eq_getElem hlt]
  congr 1
  rw [linspace_getElem a b n _ h2 hlt, hlen]
  have hc : ((n - 1 : ℕ) : ℚ) = (n : ℚ) - 1 := by
    have h1 : (1 : ℕ) ≤ n := by omega
    push_cast [h1]
    ring
  have hn0 : (n : ℚ) - 1 ≠ 0 := by
    have : (2 : ℚ) ≤ (n : ℚ) := by exact_mod_cast h2
    intro h
    linarith
  rw [hc]
  field_simp

theorem consecutiveDiffs_length (l : List ℚ) :
    (consecutiveDiffs l).length = l.length - 1 := by
  simp [consecutiveDiffs]

theorem consecutiveDiffs_linspace (a b : ℚ) (n : ℕ) (h2 : 2 ≤ n) :
    consecutiveDiffs (linspace a b n) =
      List.replicate (n - 1) ((b - a) / ((n : ℚ) - 1)) := by
  apply List.ext_getElem
  · rw [consecutiveDiffs_length, linspace_length, List.length_replicate]
  · intro i hi hi'
    have hlen : (linspace a b n).length = n := linspace_length a b n
    have hib : i < n - 1 := by
      rw [consecutiveDiffs_length, hlen] at hi
      exact hi
    have h1 : i < (linspace a b n).length := by omega
    have h1' : i + 1 < (linspace a b n).length := by omega
    have htail : i < (linspace a b n).tail.length := by
      rw [List.length_tail]; omega
    simp only [consecutiveDiffs, List.getElem_map, List.getElem_zip,
      List.getElem_tail, List.getElem_replicate]
    rw [linspace_getElem a b n _ h2 h1', linspace_getElem a b n _ h2 h1]
    push_cast
    ring

theorem pyInt_default_grid : pyInt (((48 : ℚ) - 30) / 1.375) = 13 := by
  unfold pyInt
  rw [if_pos (by norm_num)]
  rw [show ((48 : ℚ) - 30) / 1.375 = 144 / 11 by norm_num]
  rw [Int.floor_eq_iff]
  norm_num

theorem timeSeq_default_eq : timeSeq defaultConfig = linspace 30 48 14 := by
  show linspace (30 : ℚ) 48 ((pyInt (((48 : ℚ) - 30) / 1.375) + 1).toNat) =
    linspace 30 48 14
  rw [pyInt_default_grid]
  rfl

theorem timeSeq_default_length : (timeSeq defaultConfig).length = 14 := by
  rw [timeSeq_default_eq, linspace_length]

theorem timeSeq_small_eq : timeSeq smallConfig = [0, 1, 2, 3, 4] := by
  have h4 : pyInt (((4 : ℚ) - 0) / 1) = 4 := by
    unfold pyInt
    rw [if_pos (by norm_num)]
    rw [show ((4 : ℚ) - 0) / 1 = ((4 : ℤ) : ℚ) by norm_num]
    rw [Int.floor_intCast]
  show linspace 0 4 ((pyInt (((4 : ℚ) - 0) / 1) + 1).toNat) = [0, 1, 2, 3, 4]
  rw [h4]
  show linspace 0 4 5 = [0, 1, 2, 3, 4]
  unfold linspace
  rw [if_neg (by omega)]
  rw [show List.range 5 = [0, 1, 2, 3, 4] from rfl]
  norm_num

theorem runPoints_length_le (eng : EngineBehavior) (t : ℚ) (ps : List Vec3) :
    (runPoints eng t ps).1.length ≤ ps.length := by
  induction ps with
  | nil => simp [runPoints]
  | cons p rest ih =>
    cases h1 : eng.fluidVelAcc t p with
    | none => simp [runPoints, h1]
    | some va =>
      cases h2 : eng.surfElev t p with
      | none => simp [runPoints, h1, h2]
      | some elev =>
        cases h3 : eng.surfNorm t p with
        | none => simp [runPoints, h1, h2, h3]
        | some nv =>
          simp only [runPoints, h1, h2, h3, List.length_cons]
          exact Nat.succ_le_succ ih

theorem runPoints_err_lt (eng : EngineBehavior) (t : ℚ) (ps : List Vec3)
    (he : (runPoints eng t ps).2.isSome = true) :
    (runPoints eng t ps).1.length < ps.length := by
  induction ps with
  | nil => simp [runPoints] at he
  | cons p rest ih =>
    cases h1 : eng.fluidVelAcc t p with
    | none => simp [runPoints, h1]
    | some va =>
      cases h2 : eng.surfElev t p with
      | none => simp [runPoints, h1, h2]
      | some elev =>
        cases h3 : eng.surfNorm t p with
        | none => simp [runPoints, h1, h2, h3]
        | some nv =>
          simp only [runPoints, h1, h2, h3, List.length_cons]
          simp only [runPoints, h1, h2, h3] at he
          exact Nat.succ_lt_succ (ih he)

theorem runPoints_none_length (eng : EngineBehavior) (t : ℚ) (ps : List Vec3)
    (he : (runPoints eng t ps).2 = none) :
    (runPoints eng t ps).1.length = ps.length := by
  induction ps with
  | nil => simp [runPoints]
  | cons p rest ih =>
    cases h1 : eng.fluidVelAcc t p with
    | none => simp [runPoints, h1] at he
    | some va =>
      cases h2 : eng.surfElev t p with
      | none => simp [runPoints, h1, h2] at he
      | some elev =>
        cases h3 : eng.surfNorm t p with
        | none => simp [runPoints, h1, h2, h3] at he
        | some nv =>
          simp only [runPoints, h1, h2, h3, List.length_cons]
          simp only [runPoints, h1, h2, h3] at he
          exact congrArg Nat.succ (ih he)

theorem runPoints_all_ok (eng : EngineBehavior) (t : ℚ) (ps : List Vec3)
    (h : ∀ p ∈ ps, (eng.fluidVelAcc t p).isSome = true ∧
      (eng.surfElev t p).isSome = true ∧ (eng.surfNorm t p).isSome = true) :
    (runPoints eng t ps).2 = none := by
  induction ps with
  | nil => simp [runPoints]
  | cons p rest ih =>
    have hp := h p (List.mem_cons_self p rest)
    simp only [Option.isSome_iff_exists] at hp
    obtain ⟨⟨va, h1⟩, ⟨elev, h2⟩, nv, h3⟩ := hp
    simp only [runPoints, h1, h2, h3]
    exact ih fun q hq => h q (List.mem_cons_of_mem p hq)

theorem runSteps_all_ok (eng : EngineBehavior) (points : List Vec3)
    (ts : List ℚ) (h : ∀ t ∈ ts, stepOk eng points t = true) :
    (runSteps eng points ts).1.length = ts.length ∧
    (runSteps eng points ts).2.1.length = ts.length * points.length ∧
    (runSteps eng points ts).2.2 = none := by
  induction ts with
  | nil => simp [runSteps]
  | cons t rest ih =>
    have ht := h t (List.mem_cons_self t rest)
    simp only [stepOk, Bool.and_eq_true, List.all_eq_true] at ht
    obtain ⟨hc, hq⟩ := ht
    obtain ⟨vals, hvals⟩ := Option.isSome_iff_exists.mp hc
    have hnone : (runPoints eng t points).2 = none := runPoints_all_ok eng t points hq
    have hlen : (runPoints eng t points).1.length = points.length :=
      runPoints_none_length eng t points hnone
    obtain ⟨ih1, ih2, ih3⟩ := ih fun u hu => h u (List.mem_cons_of_mem t hu)
    simp only [runSteps, hvals, hnone]
    refine ⟨by simp [ih1], ?_, ih3⟩
    rw [List.length_append, hlen, ih2, List.length_cons]
    ring

theorem runSteps_err_lt (eng : EngineBehavior) (points : List Vec3)
    (ts : List ℚ) (hp : points ≠ [])
    (he : (runSteps eng points ts).2.2.isSome = true) :
    (runSteps eng points ts).2.1.length < ts.length * points.length := by
  have hppos : 0 < points.length := List.length_pos.mpr hp
  induction ts with
  | nil => simp [runSteps] at he
  | cons t rest ih =>
    cases hc : eng.calcOutput t with
    | none =>
      simp only [runSteps, hc, List.length_nil, List.length_cons]
      exact Nat.mul_pos (Nat.succ_pos _) hppos
    | some vals =>
      cases hq : (runPoints eng t points).2 with
      | some e =>
        simp only [runSteps, hc, hq, List.length_cons]
        have hlt : (runPoints eng t points).1.length < points.length :=
          runPoints_err_lt eng t points (by rw [hq]; rfl)
        calc (runPoints eng t points).1.length
            < points.length := hlt
          _ ≤ (rest.length + 1) * points.length :=
              Nat.le_mul_of_pos_left points.length (Nat.succ_pos _)
      | none =>
        have hlen : (runPoints eng t points).1.length = points.length :=
          runPoints_none_length eng t points hq
        simp only [runSteps, hc, hq] at he
        have := ih he
        simp only [runSteps, hc, hq, List.length_append, List.length_cons, hlen]
        calc points.length + (runSteps eng points rest).2.1.length
            < points.length + rest.length * points.length :=
              Nat.add_lt_add_left this points.length
          _ = (rest.length + 1) * points.length := by
              rw [Nat.succ_mul, Nat.add_comm]

theorem runSteps_fail_at (eng : EngineBehavior) (points : List Vec3)
    (pre : List ℚ) (t : ℚ) (post : List ℚ)
    (hok : ∀ u ∈ pre, stepOk eng points u = true)
    (hfail : eng.calcOutput t = none) :
    (runSteps eng points (pre ++ t :: post)).1.length = pre.length ∧
    (runSteps eng points (pre ++ t :: post)).2.1.length =
      pre.length * points.length ∧
    (runSteps eng points (pre ++ t :: post)).2.2 =
      some (RunError.calcOutput t) := by
  induction pre with
  | nil => simp [runSteps, hfail]
  | cons u rest ih =>
    have hu := hok u (List.mem_cons_self u rest)
    simp only [stepOk, Bool.and_eq_true, List.all_eq_true] at hu
    obtain ⟨hc, hq⟩ := hu
    obtain ⟨vals, hvals⟩ := Option.isSome_iff_exists.mp hc
    have hnone : (runPoints eng u points).2 = none := runPoints_all_ok eng u points hq
    have hlen : (runPoints eng u points).1.length = points.length :=
      runPoints_none_length eng u points hnone
    obtain ⟨ih1, ih2, ih3⟩ := ih fun v hv => hok v (List.mem_cons_of_mem u hv)
    rw [List.cons_append]
    simp only [runSteps, hvals, hnone]
    refine ⟨by simp [ih1], ?_, ih3⟩
    rw [List.length_append, hlen, ih2, List.length_cons]
    ring

end SeaState

/-! ## Claim theorems -/

namespace SeaState

/-- Claim C3: for every valid configuration with `t_start ≤ t_final` and
`dt > 0`, the TimeStep sequence built in `SeaStateDriver.__init__` has length
`floor((t_final - t_start)/dt) + 1` and its first element equals `t_start`
exactly. -/
theorem seastate_timeSeq_length_and_head (cfg : SeaStateConfig)
    (h1 : cfg.t_start ≤ cfg.t_final) (h2 : 0 < cfg.dt) :
    (timeSeq cfg).length = (⌊(cfg.t_final - cfg.t_start) / cfg.dt⌋).toNat + 1 ∧
    (timeSeq cfg).head? = some cfg.t_start := by
  have hq : 0 ≤ (cfg.t_final - cfg.t_start) / cfg.dt :=
    div_nonneg (by linarith) (le_of_lt h2)
  have hfloor : 0 ≤ ⌊(cfg.t_final - cfg.t_start) / cfg.dt⌋ :=
    Int.floor_nonneg.mpr hq
  have hpy : pyInt ((cfg.t_final - cfg.t_start) / cfg.dt) =
      ⌊(cfg.t_final - cfg.t_start) / cfg.dt⌋ := by
    unfold pyInt
    rw [if_pos hq]
  constructor
  · simp only [timeSeq, hpy, linspace_length]
    omega
  · simp only [timeSeq, hpy]
    exact linspace_head _ _ _ (by omega)

/-- Witness for Claim C3 at the default configuration. -/
theorem seastate_timeSeq_length_and_head_witness :
    (timeSeq defaultConfig).length =
      (⌊(defaultConfig.t_final - defaultConfig.t_start) / defaultConfig.dt⌋).toNat + 1 ∧
    (timeSeq defaultConfig).head? = some defaultConfig.t_start :=
  seastate_timeSeq_length_and_head defaultConfig
    (by show (30 : ℚ) ≤ 48; norm_num) (by show (0 : ℚ) < 1.375; norm_num)

/-- Claim C1 (code bug): at the fixed configuration
`t_start=30.0, t_final=48.0, dt=1.375`, the grid built by
`np.linspace(t_start, t_final, int((t_final - t_start)/dt) + 1)` has 14
entries whose consecutive spacing is `18/13`, not the configured
`dt = 1.375`, and whose last entry is `48.0`, not `30.0 + 13*1.375 = 47.875`:
`np.linspace` spreads the points evenly up to `t_final`, contradicting the
source's own comments that `dt` is the "time interval that ifw is being
called at" (the same `dt` handed to the engine via `sslib.dt`). -/
theorem seastate_time_grid_spacing_bug :
    (timeSeq defaultConfig).length = 14 ∧
    (timeSeq defaultConfig).getLast? = some 48 ∧
    consecutiveDiffs (timeSeq defaultConfig) = List.replicate 13 (18 / 13) ∧
    (18 : ℚ) / 13 ≠ 1.375 ∧
    (48 : ℚ) ≠ 30 + 13 * 1.375 := by
  refine ⟨timeSeq_default_length, ?_, ?_, by norm_num, by norm_num⟩
  · rw [timeSeq_default_eq]
    exact linspace_getLast _ _ _ (by norm_num)
  · rw [timeSeq_default_eq, consecutiveDiffs_linspace _ _ _ (by norm_num)]
    norm_num

end SeaState


namespace SeaState

/-- Claim C2 counterexample: in a run whose step `k = 2` (0-indexed) fails
inside `seastate_calcOutput`, the channel-series sink (`py_seastate.out`)
receives no rows at all — not the `k = 2` completed rows the claim asserts —
because the write of `all_output_channel_values` to `out_file` sits after the
`try`/`finally` block and is skipped when the exception propagates.  The two
completed rows exist only in the in-memory table. -/
theorem channel_sink_rows_counterexample :
    (runLoop engFailAt2 smallConfig [p0]).error = some (RunError.calcOutput 2) ∧
    (runLoop engFailAt2 smallConfig [p0]).channelMemRows.length = 2 ∧
    (runLoop engFailAt2 smallConfig [p0]).channelFileRows = none := by
  norm_num [runLoop, runSteps, runPoints, engFailAt2, engAllOk, p0,
    timeSeq_small_eq]

/-- Claim C2 (amended): if the engine's step computation fails at step `k`
(0-indexed, after `k` fully successful steps), the guaranteed cleanup path
closes the per-point Result sink with exactly `k·P` rows and exactly `k`
channel-series rows are completed in memory, but the channel-series file sink
receives zero rows — the flush of `all_output_channel_values` happens only
after a fully successful run. -/
theorem channel_sink_rows_on_failure (eng : EngineBehavior)
    (cfg : SeaStateConfig) (points : List Vec3) (pre : List ℚ) (t : ℚ)
    (post : List ℚ) (hsplit : timeSeq cfg = pre ++ t :: post)
    (hok : ∀ u ∈ pre, stepOk eng points u = true)
    (hfail : eng.calcOutput t = none) :
    (runLoop eng cfg points).channelMemRows.length = pre.length ∧
    (runLoop eng cfg points).resultRows.length = pre.length * points.length ∧
    (runLoop eng cfg points).channelFileRows = none ∧
    (runLoop eng cfg points).resultsEnded = true ∧
    (runLoop eng cfg points).engineEnded = true := by
  have h := runSteps_fail_at eng points pre t post hok hfail
  simp only [runLoop, hsplit]
  exact ⟨h.1, h.2.1, by simp only [h.2.2], trivial, trivial⟩

/-- Witness for the amended Claim C2: failing step `k = 2` of 5 with one
sample point leaves 2 rows in memory, 2 rows in the per-point sink, and
nothing in the channel-series file sink. -/
theorem channel_sink_rows_on_failure_witness :
    (runLoop engFailAt2 smallConfig [p0]).channelMemRows.length = 2 ∧
    (runLoop engFailAt2 smallConfig [p0]).resultRows.length = 2 ∧
    (runLoop engFailAt2 smallConfig [p0]).channelFileRows = none ∧
    (runLoop engFailAt2 smallConfig [p0]).resultsEnded = true ∧
    (runLoop engFailAt2 smallConfig [p0]).engineEnded = true :=
  channel_sink_rows_on_failure engFailAt2 smallConfig [p0] [0, 1] 2 [3, 4]
    (by rw [timeSeq_small_eq]; rfl)
    (by
      intro u hu
      have hu' : u = 0 ∨ u = 1 := by simpa using hu
      rcases hu' with h | h <;> subst h <;>
        norm_num [stepOk, engFailAt2, engAllOk, p0])
    (by norm_num [engFailAt2, engAllOk])

/-- Claim C4 counterexample: when `seastate_init` fails, `run_simulation`
does not propagate the error to its caller by raising — it prints a message
and calls `sys.exit(1)` itself, terminating the process from inside the
reusable harness and swallowing the original exception. -/
theorem init_failure_exits_counterexample :
    run_simulation engInitFails defaultConfig (some [p0]) =
      DriverResult.exited 1 ∧
    (run_simulation engInitFails defaultConfig (some [p0])).isRaised = false := by
  norm_num [run_simulation, engInitFails, engAllOk, DriverResult.isRaised]

/-- Claim C4 (amended): for failures of the per-step engine calls inside the
time loop, the harness performs teardown (`results_output.end()` and
`seastate_end()` in the `finally` block) and re-raises the original error
unchanged to its caller; but for library-load, points-file, `preinit`,
`init` and pointer-exchange failures, `run_simulation` itself prints and
exits the process with status 1, swallowing the original exception. -/
theorem step_failure_raises_after_teardown (eng : EngineBehavior)
    (cfg : SeaStateConfig) (points : List Vec3) (e : RunError)
    (hpre : eng.preinitOk = true) (hinit : eng.initOk = true)
    (hget : eng.getPtrOk = true) (hset : eng.setPtrOk = true)
    (herr : (runLoop eng cfg points).error = some e) :
    run_simulation eng cfg (some points) =
      DriverResult.raised e (runLoop eng cfg points) ∧
    (runLoop eng cfg points).resultsEnded = true ∧
    (runLoop eng cfg points).engineEnded = true := by
  refine ⟨?_, rfl, rfl⟩
  simp only [run_simulation, hpre, hinit, hget, hset]
  simp [herr]

/-- Witness for the amended Claim C4: the step failure at `t = 2` is raised
to the caller with the original error, after the cleanup path ran. -/
theorem step_failure_raises_after_teardown_witness :
    run_simulation engFailAt2 smallConfig (some [p0]) =
      DriverResult.raised (RunError.calcOutput 2)
        (runLoop engFailAt2 smallConfig [p0]) ∧
    (runLoop engFailAt2 smallConfig [p0]).resultsEnded = true ∧
    (runLoop engFailAt2 smallConfig [p0]).engineEnded = true :=
  step_failure_raises_after_teardown engFailAt2 smallConfig [p0]
    (RunError.calcOutput 2) rfl rfl rfl rfl
    (by norm_num [runLoop, runSteps, runPoints, engFailAt2, engAllOk, p0,
      timeSeq_small_eq])

/-- Claim C9: a run over `P ≥ 1` sample points and the `N` timesteps of the
grid writes exactly `P·N` `ResultRecord` rows to the per-point sink when
every step succeeds, and strictly fewer than `P·N` rows when any step fails
partway. -/
theorem result_record_row_count (eng : EngineBehavior) (cfg : SeaStateConfig)
    (points : List Vec3) (hP : points ≠ []) :
    ((∀ t ∈ timeSeq cfg, stepOk eng points t = true) →
      (runLoop eng cfg points).resultRows.length =
        points.length * (timeSeq cfg).length ∧
      (runLoop eng cfg points).error = none) ∧
    ((runLoop eng cfg points).error.isSome = true →
      (runLoop eng cfg points).resultRows.length <
        points.length * (timeSeq cfg).length) := by
  constructor
  · intro h
    obtain ⟨h1, h2, h3⟩ := runSteps_all_ok eng points (timeSeq cfg) h
    refine ⟨?_, ?_⟩
    · simp only [runLoop]
      rw [h2, Nat.mul_comm]
    · simp only [runLoop]
      exact h3
  · intro h
    have h' : (runSteps eng points (timeSeq cfg)).2.2.isSome = true := by
      simpa only [runLoop] using h
    have := runSteps_err_lt eng points (timeSeq cfg) hP h'
    simp only [runLoop]
    rw [Nat.mul_comm points.length]
    exact this

/-- Witness for Claim C9: the all-successful run over the default
configuration's 14 steps and 3 sample points writes exactly `3·14 = 42`
rows. -/
theorem result_record_row_count_witness :
    (runLoop engAllOk defaultConfig pts3).resultRows.length = 42 := by
  have h := (result_record_row_count engAllOk defaultConfig pts3
      (by simp [pts3])).1
    (fun t _ => by norm_num [stepOk, engAllOk, pts3])
  rw [h.1, timeSeq_default_length]
  norm_num [pts3]

end SeaState

namespace SeaState

theorem flushOp_flushOp (k : ResultSink) : flushOp (flushOp k) = flushOp k := by
  by_cases hk : k.flushed <;> simp [flushOp, hk]

theorem flushOp_writes_le (k : ResultSink) :
    (flushOp k).writes ≤ k.writes + 1 := by
  by_cases hk : k.flushed <;> simp [flushOp, hk]

/-- Claim C5 (spec-modelled): `finalize()` is idempotent — from any state at
or after `Initialized`, the teardown routine (flush the Result sink,
finalize the engine) succeeds, and running it a second time on the resulting
state succeeds with the very same state: no error and no duplicate physical
write of the Result sink (at most one write happens in total). -/
theorem finalize_twice_safe (s : EngineState) (k : ResultSink)
    (h : atLeastInitialized s.life = true) :
    ∃ s2 k2, teardown s k = Except.ok (s2, k2) ∧
      teardown s2 k2 = Except.ok (s2, k2) ∧
      k2.flushed = true ∧ k2.writes ≤ k.writes + 1 := by
  obtain ⟨life, wf, hr⟩ := s
  refine ⟨⟨.finalized, wf, true⟩, flushOp k, ?_, ?_, ?_, flushOp_writes_le k⟩
  · simp [teardown, finalizeOp, h]
  · simp [teardown, finalizeOp, atLeastInitialized, flushOp_flushOp]
  · by_cases hk : k.flushed <;> simp [flushOp, hk]

/-- Witness for Claim C5 from the `Initialized` state with a fresh sink. -/
theorem finalize_twice_safe_witness :
    ∃ s2 k2,
      teardown ⟨LifeState.initialized, ⟨0, 0⟩, false⟩ ⟨0, false, 0⟩ =
        Except.ok (s2, k2) ∧
      teardown s2 k2 = Except.ok (s2, k2) ∧
      k2.flushed = true ∧ k2.writes ≤ 0 + 1 :=
  finalize_twice_safe ⟨LifeState.initialized, ⟨0, 0⟩, false⟩ ⟨0, false, 0⟩ rfl

/-- Claim C6 (spec-modelled): on an initialized engine,
`getFieldHandle()` returns the engine's current handle without changing the
state, and immediately `setFieldHandle()` with that same handle succeeds and
leaves the engine state exactly as it was — so every subsequent step and
query result is the same as if the pair of calls had not been made. -/
theorem pointer_roundtrip_identity (s : EngineState)
    (h : atLeastInitialized s.life = true) :
    getWaveFieldPointer s = Except.ok (s.waveField, s) ∧
    setWaveFieldPointer s.waveField s = Except.ok s := by
  constructor
  · simp [getWaveFieldPointer, beforeInitialized, h]
  · obtain ⟨life, wf, hr⟩ := s
    simp [setWaveFieldPointer]

/-- Witness for Claim C6 on a concrete initialized engine state. -/
theorem pointer_roundtrip_identity_witness :
    getWaveFieldPointer ⟨LifeState.initialized, ⟨3, 7⟩, false⟩ =
      Except.ok (⟨3, 7⟩, ⟨LifeState.initialized, ⟨3, 7⟩, false⟩) ∧
    setWaveFieldPointer ⟨3, 7⟩ ⟨LifeState.initialized, ⟨3, 7⟩, false⟩ =
      Except.ok ⟨LifeState.initialized, ⟨3, 7⟩, false⟩ :=
  pointer_roundtrip_identity ⟨LifeState.initialized, ⟨3, 7⟩, false⟩ rfl

/-- Claim C7 (spec-modelled): in any allowed state, running the three field
queries at the same `(t, p)` in any order yields, for each query, exactly
the order-independent answer of its kind, and leaves the engine state
untouched — there is no hidden shared mutable query state between kinds. -/
theorem query_order_independent (m : FieldModel) (t : ℚ) (p : Vec3)
    (s : EngineState) (ks : List QueryKind)
    (h : callAllowed s.life = true) :
    (runQueries m t p s ks).1 =
      ks.map (fun k => Except.ok (queryAnswer m t p k)) ∧
    (runQueries m t p s ks).2 = s := by
  induction ks with
  | nil => simp [runQueries]
  | cons k rest ih => simp [runQueries, guardedQuery, h, ih.1, ih.2]

/-- Witness for Claim C7: a non-canonical query order (elevation, normal,
velocity/acceleration) still produces each kind's own answer. -/
theorem query_order_independent_witness :
    (runQueries fm0 3 p0 ⟨LifeState.stepping, ⟨0, 0⟩, false⟩
        [QueryKind.elev, QueryKind.surfaceNorm, QueryKind.velAcc]).1 =
      [Except.ok (queryAnswer fm0 3 p0 QueryKind.elev),
        Except.ok (queryAnswer fm0 3 p0 QueryKind.surfaceNorm),
        Except.ok (queryAnswer fm0 3 p0 QueryKind.velAcc)] ∧
    (runQueries fm0 3 p0 ⟨LifeState.stepping, ⟨0, 0⟩, false⟩
        [QueryKind.elev, QueryKind.surfaceNorm, QueryKind.velAcc]).2 =
      ⟨LifeState.stepping, ⟨0, 0⟩, false⟩ :=
  query_order_independent fm0 3 p0 ⟨LifeState.stepping, ⟨0, 0⟩, false⟩
    [QueryKind.elev, QueryKind.surfaceNorm, QueryKind.velAcc] rfl

/-- Claim C8 (spec-modelled): any stepping or field-query operation invoked
before `initialize` completes fails with `LifecycleViolationError` — never
with a lower-level engine error, even when the underlying engine computation
would itself fail. -/
theorem pre_init_calls_fail_lifecycle (m : FieldModel) (s : EngineState)
    (t : ℚ) (p : Vec3) (k : QueryKind)
    (h : beforeInitialized s.life = true) :
    guardedStep m s t = Except.error HarnessError.lifecycleViolationError ∧
    guardedQuery m s t p k =
      Except.error HarnessError.lifecycleViolationError := by
  have hc : callAllowed s.life = false := by
    cases hl : s.life <;>
      simp_all [beforeInitialized, atLeastInitialized, callAllowed]
  constructor <;> simp [guardedStep, guardedQuery, hc]

/-- Witness for Claim C8: from `Uninitialized`, a step and a query both
fail with the lifecycle violation even though the raw engine step would have
failed with `StepComputationError`. -/
theorem pre_init_calls_fail_lifecycle_witness :
    guardedStep fmRawFails ⟨LifeState.uninitialized, ⟨0, 0⟩, false⟩ 0 =
      Except.error HarnessError.lifecycleViolationError ∧
    guardedQuery fmRawFails ⟨LifeState.uninitialized, ⟨0, 0⟩, false⟩ 0 p0
        QueryKind.elev =
      Except.error HarnessError.lifecycleViolationError :=
  pre_init_calls_fail_lifecycle fmRawFails
    ⟨LifeState.uninitialized, ⟨0, 0⟩, false⟩ 0 p0 QueryKind.elev rfl

end SeaState

namespace WaveTank

/-- Claim C10: in the wavetank driver, for every step, the 6-component
position, velocity and acceleration arrays passed to `wtlib.calc_step` have
their second component equal to their sixth (both hold the yaw channels
`psi`, `psi_dot`, `psi_ddot`, because the bindings `y`, `y_dot`, `y_ddot`
are reassigned before the arrays are formed), and the motion source's
translational `y`, `y_dot`, `y_ddot` values never reach the engine. -/
theorem wavetank_yaw_overwrites_sway (m : FloaterMotion) :
    ((stepInputs m).pos[1]? = some m.psi ∧
      (stepInputs m).pos[5]? = some m.psi) ∧
    ((stepInputs m).vel[1]? = some m.psi_dot ∧
      (stepInputs m).vel[5]? = some m.psi_dot) ∧
    ((stepInputs m).acc[1]? = some m.psi_ddot ∧
      (stepInputs m).acc[5]? = some m.psi_ddot) ∧
    (∀ a b c : ℚ,
      stepInputs { m with y := a, y_dot := b, y_ddot := c } = stepInputs m) := by
  refine ⟨⟨rfl, rfl⟩, ⟨rfl, rfl⟩, ⟨rfl, rfl⟩, fun a b c => rfl⟩

end WaveTank
